import Mathlib

/-!
Shallow embedding of the `isp-programmer` flash-programming core
(`src/src/isp_programmer/ISPConnection.py` and
`src/src/isp_programmer/tools.py`), together with proofs about the
image-preparation, flash-write and protocol-response code paths.

Bytes are modelled as `List Nat`; Python exceptions are modelled with
`Except PyErr`.  Serial side effects are modelled as explicit event
traces, and the bootloader's replies are supplied either as explicit
response scripts (lists of line reads) or as oracles.
-/

namespace Isp

/-- Kinds of Python exceptions raised by the modelled code paths. -/
inductive PyErr where
  | assertionError
  | userWarning
  | structError
  | valueError
  | indexError
  | timeoutError
  deriving DecidableEq, Repr

/-- A byte string (`bytes` in the source); entries are byte values. -/
abbrev Bytes := List Nat

/-- `tools.CalculateCheckSum`: two's complement of the sum,
`(1 << 32) - (csum % (1 << 32))`.  Note there is no outer reduction
modulo `2^32`: when the sum is `0 mod 2^32` this returns `2^32` itself. -/
def CalculateCheckSum (frame : List Nat) : Nat :=
  (1 <<< 32) - (frame.sum % (1 <<< 32))

/-- `tools.calc_sector_count`: `ceil(len(image) / sector_bytes)`. -/
def calc_sector_count (image : Bytes) (sector_bytes : Nat) : Nat :=
  (image.length + sector_bytes - 1) / sector_bytes

/-- One step of the bit-by-bit zlib CRC-32 (reflected polynomial `0xEDB88320`). -/
def crcStepBit (c : Nat) : Nat :=
  if c % 2 = 1 then (c / 2) ^^^ 0xEDB88320 else c / 2

/-- Fold one byte into the zlib CRC-32 state. -/
def crcByte (c b : Nat) : Nat :=
  crcStepBit (crcStepBit (crcStepBit (crcStepBit
    (crcStepBit (crcStepBit (crcStepBit (crcStepBit (c ^^^ b))))))))

/-- `tools.calc_crc`: `zlib.crc32(frame, 0)` (standard zlib polynomial). -/
def calc_crc (frame : Bytes) : Nat :=
  (frame.foldl crcByte 0xFFFFFFFF) ^^^ 0xFFFFFFFF

/-- Little-endian 32-bit word number `i` of an image,
as `struct.unpack("<8I", ...)` reads it. -/
def leWordAt (img : Bytes) (i : Nat) : Nat :=
  img.getD (4 * i) 0 + 256 * img.getD (4 * i + 1) 0 +
    65536 * img.getD (4 * i + 2) 0 + 16777216 * img.getD (4 * i + 3) 0

/-- The four bytes of `struct.pack("<I", v)` (valid only for `v < 2^32`). -/
def pack32 (v : Nat) : Bytes :=
  [v % 256, v / 256 % 256, v / 65536 % 256, v / 16777216 % 256]

/-- `GetCheckSumedVectorTable`: unpack the first eight little-endian words
(`struct.error` if the image is shorter than 32 bytes), zero the word at
`vector_table_loc` (`IndexError` if out of bounds), write the two's-complement
checksum there, and repack.  `struct.pack("<I", v)` raises `struct.error`
when `v ≥ 2^32`, which happens exactly when the checksum overflows. -/
def GetCheckSumedVectorTable (vector_table_loc : Nat) (orig_image : Bytes) :
    Except PyErr Bytes :=
  if orig_image.length < 32 then .error .structError
  else if 8 ≤ vector_table_loc then .error .indexError
  else
    let intvecs := (List.range 8).map (leWordAt orig_image)
    let cleared := intvecs.set vector_table_loc 0
    let csum := CalculateCheckSum cleared
    let final := cleared.set vector_table_loc csum
    if final.all (fun v => v < 4294967296) then
      .ok (final.map pack32).flatten
    else .error .structError

/-- `MakeBootable`: checksummed vector table followed by the rest of the image. -/
def MakeBootable (vector_table_loc : Nat) (orig_image : Bytes) :
    Except PyErr Bytes := do
  let vector_table_bytes ← GetCheckSumedVectorTable vector_table_loc orig_image
  return vector_table_bytes ++ orig_image.drop vector_table_bytes.length

/-- `RemoveBootableCheckSum`: calls `MakeBootable` (result discarded, but its
exceptions propagate), then zeroes the four bytes of word `vector_table_loc`
(`IndexError` when the image is too short). -/
def RemoveBootableCheckSum (vector_table_loc : Nat) (image : Bytes) :
    Except PyErr Bytes := do
  let _ ← MakeBootable vector_table_loc image
  if 4 * vector_table_loc + 3 < image.length then
    return ((((image.set (4 * vector_table_loc) 0).set
      (4 * vector_table_loc + 1) 0).set
      (4 * vector_table_loc + 2) 0).set
      (4 * vector_table_loc + 3) 0)
  else .error .indexError

/-- `ChipDescription` after a successful `__init__` (the constructor also sets
`CrystalFrequency = 12000` and `kCheckSumLocation = 7`, modelled as constants
below since they do not depend on the descriptor). -/
structure ChipDescription where
  RAMRange : Nat × Nat
  FlashRange : Nat × Nat
  RAMBufferSize : Nat
  SectorCount : Nat
  RAMStartWrite : Nat
  deriving DecidableEq, Repr

/-- `ChipDescription.__init__`: reads the descriptor fields and asserts
`RAMRange[0] > 0`, `RAMRange[1] > RAMRange[0]`, `FlashRange[1] > FlashRange[0]`
and `SectorCount > 0`; construction fails (AssertionError) otherwise. -/
def mkChipDescription (ramRange flashRange : Nat × Nat)
    (ramBufferSize sectorCount ramStartWrite : Nat) : Option ChipDescription :=
  if 0 < ramRange.1 ∧ ramRange.1 < ramRange.2 ∧ flashRange.1 < flashRange.2 ∧
      0 < sectorCount then
    some { RAMRange := ramRange, FlashRange := flashRange,
           RAMBufferSize := ramBufferSize, SectorCount := sectorCount,
           RAMStartWrite := ramStartWrite }
  else none

/-- `ChipDescription.kCheckSumLocation`, set unconditionally in `__init__`. -/
def kCheckSumLocation : Nat := 7

/-- `ChipDescription.sector_bytes` property: `SectorSizePages * kPageSizeBytes
= 16 * 64 = 1024`; raises `UserWarning` when it exceeds `MaxByteTransfer`
(= `RAMBufferSize`). -/
def sector_bytes (chip : ChipDescription) : Except PyErr Nat :=
  let sb := 16 * 64
  if chip.RAMBufferSize < sb then .error .userWarning else .ok sb

/-- `ChipDescription.FlashAddressLegal`. -/
def FlashAddressLegal (chip : ChipDescription) (address : Nat) : Bool :=
  decide (chip.FlashRange.1 ≤ address ∧ address ≤ chip.FlashRange.2)

/-- `ChipDescription.FlashRangeLegal`: both endpoints in range, length within
the flash span, and page (64-byte) alignment. -/
def FlashRangeLegal (chip : ChipDescription) (address length : Nat) : Bool :=
  FlashAddressLegal chip address &&
    FlashAddressLegal chip (address + length - 1) &&
    decide (length ≤ chip.FlashRange.2 - chip.FlashRange.1) &&
    decide (address % 64 = 0)

/-- `ChipDescription.RamAddressLegal`. -/
def RamAddressLegal (chip : ChipDescription) (address : Nat) : Bool :=
  decide (chip.RAMRange.1 ≤ address ∧ address ≤ chip.RAMRange.2)

/-- `ChipDescription.RamRangeLegal`: both endpoints in range, length within
the RAM span, and word (4-byte) alignment. -/
def RamRangeLegal (chip : ChipDescription) (address length : Nat) : Bool :=
  RamAddressLegal chip address &&
    RamAddressLegal chip (address + length - 1) &&
    decide (length ≤ chip.RAMRange.2 - chip.RAMRange.1) &&
    decide (address % 4 = 0)

/-! ### Line-level protocol responses

`_read_line` either yields a line or raises a timeout; a device interaction
script is a list of such outcomes.  An exhausted script behaves like a
timed-out read (a silent device). -/

/-- Outcome of one `_read_line` call. -/
inductive ReadEv where
  | line (s : String)
  | timedOut
  deriving DecidableEq, Repr

/-- The whitespace characters removed by Python's `str.strip()`. -/
def isPySpace (c : Char) : Bool :=
  c = ' ' || c = '\t' || c = '\n' || c = '\r' || c = '\x0b' || c = '\x0c'

/-- Python `str.strip()`: drop whitespace from both ends. -/
def pyStrip (s : String) : String :=
  ⟨((s.data.dropWhile isPySpace).reverse.dropWhile isPySpace).reverse⟩

/-- Digit run of a Python decimal literal: nonempty digits in which single
underscores may appear between digits. -/
def pyIntDigits : Nat → Bool → List Char → Option Nat
  | acc, prevDigit, [] => if prevDigit then some acc else none
  | acc, prevDigit, c :: cs =>
    if c.isDigit then pyIntDigits (10 * acc + (c.toNat - 48)) true cs
    else if c = '_' then
      if prevDigit then pyIntDigits acc false cs else none
    else none

/-- Python `int(s)` (decimal): optional surrounding whitespace, optional
sign, then a digit run.  `none` models `ValueError`. -/
def pyInt (s : String) : Option Int :=
  match (pyStrip s).data with
  | '+' :: cs => (pyIntDigits 0 false cs).map Int.ofNat
  | '-' :: cs => (pyIntDigits 0 false cs).map (fun n => -(n : Int))
  | cs => (pyIntDigits 0 false cs).map Int.ofNat

/-- `NXPReturnCodes["NoStatusResponse"]`. -/
def NoStatusResponse : Int := 0xFF

/-- `ISPConnection._get_return_code`, given the command just sent and the
script of line reads the device will supply.  Returns the parsed return code
(or the `ValueError` that `int()` raises on a non-decimal, non-empty line)
together with whether the timeout branch wrote a nudge newline.
A line equal (modulo strip) to the command is discarded as an echo and a
second line is read; a timeout on either read yields `NoStatusResponse`
after writing a newline; an empty line yields `NoStatusResponse`. -/
def get_return_code (command_string : String) (reads : List ReadEv) :
    Except PyErr Int × Bool :=
  let finish : String → Except PyErr Int × Bool := fun resp =>
    if resp.length = 0 then (.ok NoStatusResponse, false)
    else
      match pyInt (pyStrip resp) with
      | some v => (.ok v, false)
      | none => (.error .valueError, false)
  match reads with
  | [] => (.ok NoStatusResponse, true)
  | .timedOut :: _ => (.ok NoStatusResponse, true)
  | .line resp :: rest =>
    if pyStrip resp = pyStrip command_string then
      match rest with
      | [] => (.ok NoStatusResponse, true)
      | .timedOut :: _ => (.ok NoStatusResponse, true)
      | .line resp2 :: _ => finish resp2
    else finish resp

/-- `ISPConnection.ReadMemory`, given the device's return code for the `R`
command and the bytes `buffered` that have arrived when the receive loop
exits.  The second component is the list of command strings written to the
serial channel (the alignment assertion fires before anything is written).
A buffer that never reaches `num_bytes` is a read timeout; the code then
drains the whole buffer and asserts it holds exactly `num_bytes`. -/
def ReadMemory (code : Nat) (buffered : Bytes) (start num_bytes : Nat) :
    Except PyErr Bytes × List String :=
  if num_bytes % 4 ≠ 0 then (.error .assertionError, [])
  else
    let command := "R " ++ toString start ++ " " ++ toString num_bytes
    if code ≠ 0 then (.error .userWarning, [command])
    else if buffered.length < num_bytes then (.error .timeoutError, [command])
    else if buffered.length ≠ num_bytes then (.error .assertionError, [command])
    else (.ok buffered, [command])

/-- `ISPConnection.CheckSectorsBlank`, given the device's return code for the
`I` command and the script of subsequent line reads.  Returns the boolean
result (or the raised error) together with the number of diagnostic lines
consumed: on `SECTOR_NOT_BLANK` (8) it reads two lines inside a
`try/except`, so a timeout stops early; any code other than `CMD_SUCCESS`
(0) or 8 raises `UserWarning`. -/
def CheckSectorsBlank (start endSector : Nat) (code : Nat)
    (reads : List ReadEv) : Except PyErr Bool × Nat :=
  if endSector < start then (.error .assertionError, 0)
  else
    let consumed : Nat :=
      if code = 8 then
        match reads with
        | .line _ :: .line _ :: _ => 2
        | .line _ :: _ => 1
        | _ => 0
      else 0
    if code ≠ 0 ∧ code ≠ 8 then (.error .userWarning, consumed)
    else (.ok (code == 0), consumed)

/-! ### The flash-write pipeline as event traces

ISP commands issued by `WriteFlashSector` are modelled as events; the
device's replies (CRC values, compare results, blank checks) come from an
oracle, and every plain command is assumed to be answered with
`CMD_SUCCESS` (a failing command would raise and produce no further
events). -/

/-- One serial interaction of the sector pipeline. -/
inductive Ev where
  | readCRC (address num_bytes : Nat)
  | writeToRam (address : Nat) (data : Bytes)
  | resetBuffer
  | memEqualQuery (address1 address2 num_bytes : Nat)
  | prep (startSector endSector : Nat)
  | erase (startSector endSector : Nat)
  | blankCheck (startSector endSector : Nat)
  | copyRamToFlash (flash_address ram_address num_bytes : Nat)
  deriving DecidableEq, Repr

/-- Device-side answers to the pipeline's queries. -/
structure DeviceOracle where
  crcOf : Nat → Nat → Nat
  memEqual : Nat → Nat → Nat → Bool
  sectorsBlank : Nat → Nat → Bool

/-- Does the event prepare, erase, blank-check or copy (the commands the
short-circuit must avoid)? -/
def Ev.isDestructive : Ev → Bool
  | .prep _ _ => true
  | .erase _ _ => true
  | .blankCheck _ _ => true
  | .copyRamToFlash _ _ _ => true
  | _ => false

/-- `WriteFlashSector`: stage to RAM, CRC-check, then — unless the flash
sector already equals the staged RAM — prep, erase, blank-check, prep
again, copy and verify.  Returns the trace of serial interactions on
success; assertion failures raise. -/
def WriteFlashSector (o : DeviceOracle) (chip : ChipDescription)
    (sector : Nat) (data : Bytes) : Except PyErr (List Ev) := do
  let ram_address := chip.RAMStartWrite
  let sb ← sector_bytes chip
  let flash_address := chip.FlashRange.1 + sector * sb
  if data.length ≠ sb then throw .assertionError
  let data_crc := calc_crc data
  let t0 : List Ev := [.readCRC ram_address data.length]
  if ¬ RamRangeLegal chip ram_address data.length then throw .assertionError
  if data.length % 4 ≠ 0 then throw .assertionError
  let t1 := t0 ++ [.writeToRam ram_address data, .resetBuffer,
    .readCRC ram_address data.length, .resetBuffer]
  let ram_equal := o.memEqual flash_address ram_address sb
  let t2 := t1 ++ [.memEqualQuery flash_address ram_address sb]
  if ram_equal then return t2
  let t3 := t2 ++ [.prep sector sector, .erase sector sector]
  if ¬ o.sectorsBlank sector sector then throw .assertionError
  let t4 := t3 ++ [.blankCheck sector sector, .prep sector sector]
  if ¬ RamRangeLegal chip ram_address sb then throw .assertionError
  if ¬ FlashRangeLegal chip flash_address sb then throw .assertionError
  let t5 := t4 ++ [.copyRamToFlash flash_address ram_address sb]
  if o.crcOf flash_address data.length ≠ data_crc then throw .assertionError
  if ¬ o.memEqual flash_address ram_address sb then throw .assertionError
  return t5 ++ [.readCRC flash_address data.length,
    .memEqualQuery flash_address ram_address sb]

/-- Memory of the target: flash and RAM as byte-addressed maps. -/
structure MachineState where
  flash : Nat → Nat
  ram : Nat → Nat

/-- Effect of one pipeline event on target memory: `writeToRam` updates RAM,
`erase` fills the sector range with `0xFF`, `copyRamToFlash` copies RAM into
flash; every other event leaves memory unchanged. -/
def applyEv (chip : ChipDescription) (st : MachineState) : Ev → MachineState
  | .writeToRam addr data =>
    { st with ram := fun a =>
        if addr ≤ a ∧ a < addr + data.length then data.getD (a - addr) 0
        else st.ram a }
  | .erase s e =>
    { st with flash := fun a =>
        if chip.FlashRange.1 + s * 1024 ≤ a ∧
            a < chip.FlashRange.1 + (e + 1) * 1024 then 0xFF
        else st.flash a }
  | .copyRamToFlash fa ra n =>
    { st with flash := fun a =>
        if fa ≤ a ∧ a < fa + n then st.ram (ra + (a - fa)) else st.flash a }
  | _ => st

/-- Run a trace of pipeline events on a memory state. -/
def runEvents (chip : ChipDescription) (st : MachineState) (evs : List Ev) :
    MachineState :=
  evs.foldl (applyEv chip) st

/-! ### Image-level writes at sector granularity

For the ordering claims about `WriteBinaryToFlash` and `WriteImage` the
pipeline is modelled one level up: a successful `WriteFlashSector` call is
a single `write` event carrying the sector number and the (padded) data it
stages, and `Unlock` is an `unlock` event.  Every device interaction is
assumed to succeed, as in the layer above a failure raises and truncates
the run. -/

/-- Sector-granularity serial event. -/
inductive SEv where
  | unlock
  | write (sector : Nat) (data : Bytes)
  deriving DecidableEq, Repr

/-- `WriteSector`: asserts the data is nonempty, pads it with `0xFF` up to
`sector_bytes` when the length differs, then calls `WriteFlashSector`
(whose entry assertion requires exactly `sector_bytes`; data longer than a
sector is left unpadded and trips that assertion). -/
def WriteSector (chip : ChipDescription) (sector : Nat) (data : Bytes) :
    Except PyErr (List SEv) := do
  if data.length = 0 then throw .assertionError
  let sb ← sector_bytes chip
  let padded :=
    if data.length ≠ sb then data ++ List.replicate (sb - data.length) 0xFF
    else data
  if padded.length ≠ sb then throw .assertionError
  return [.write sector padded]

/-- The `for sector in reversed(range(...))` loop body of
`WriteBinaryToFlash`: slice the image chunk for each sector and write it. -/
def WriteSectorLoop (chip : ChipDescription) (image : Bytes)
    (start_sector : Nat) : List Nat → Except PyErr (List SEv)
  | [] => .ok []
  | sector :: rest => do
    let sb ← sector_bytes chip
    let data_chunk := (image.drop ((sector - start_sector) * sb)).take sb
    let t ← WriteSector chip sector data_chunk
    let ts ← WriteSectorLoop chip image start_sector rest
    return t ++ ts

/-- `WriteBinaryToFlash`: computes the sector count, returns `1` with no
serial traffic when the image does not fit, otherwise unlocks and writes
the sectors in reverse order; returns `0` on success. -/
def WriteBinaryToFlash (chip : ChipDescription) (image : Bytes)
    (start_sector : Nat) : Except PyErr (Nat × List SEv) := do
  let sb ← sector_bytes chip
  let sector_count := calc_sector_count image sb
  if chip.SectorCount < start_sector + sector_count then
    return (1, [])
  else
    let t ← WriteSectorLoop chip image start_sector
      (List.range' start_sector sector_count).reverse
    if ¬ (FlashAddressLegal chip chip.FlashRange.1 &&
        FlashAddressLegal chip chip.FlashRange.2) then throw .assertionError
    return (0, SEv.unlock :: t)

/-- `WriteImage`: unlock, overwrite sector 0 with `0xDE` bytes (making the
device unbootable), make the image bootable, then write it from sector 0;
the status returned by `WriteBinaryToFlash` is ignored. -/
def WriteImage (chip : ChipDescription) (imagein : Bytes) :
    Except PyErr (List SEv) := do
  let sb ← sector_bytes chip
  let corrupt ← WriteSector chip 0 (List.replicate sb 0xDE)
  let image ← MakeBootable kCheckSumLocation imagein
  let (_, t) ← WriteBinaryToFlash chip image 0
  return SEv.unlock :: (corrupt ++ t)

/-- Trace left by `WriteFlashSector` when the pre-write compare reports the
flash sector already equal to the staged RAM. -/
def shortCircuitTrace (chip : ChipDescription) (sector : Nat) (data : Bytes) :
    List Ev :=
  [.readCRC chip.RAMStartWrite 1024,
   .writeToRam chip.RAMStartWrite data, .resetBuffer,
   .readCRC chip.RAMStartWrite 1024, .resetBuffer,
   .memEqualQuery (chip.FlashRange.1 + sector * 1024) chip.RAMStartWrite 1024]

/-! ### Concrete fixtures (an LPC845-sized part) used to instantiate the
theorems on closed inputs. -/

/-- A well-formed chip: 64 KiB flash at 0, 16 KiB RAM at `0x10000000`,
4 KiB RAM buffer at `0x10000800`, 64 sectors. -/
def chip845 : ChipDescription :=
  { RAMRange := (268435456, 268451839), FlashRange := (0, 65535),
    RAMBufferSize := 4096, SectorCount := 64, RAMStartWrite := 268437504 }

/-- The same part restricted to a single sector, used to exercise the
capacity check. -/
def chipOneSector : ChipDescription :=
  { RAMRange := (268435456, 268451839), FlashRange := (0, 65535),
    RAMBufferSize := 4096, SectorCount := 1, RAMStartWrite := 268437504 }

/-- A 33-byte image of `0x01` bytes. -/
def img33 : Bytes := List.replicate 33 1

/-- `MakeBootable 7 img33`: the first seven words are `0x01010101`, the
checksum word is `0xF8F8F8F9`, and the tail byte survives. -/
def img33boot : Bytes := List.replicate 28 1 ++ [249, 248, 248, 248, 1]

/-- `img33boot` with the four checksum bytes (28..31) zeroed, i.e. `img33`
with word 7 cleared. -/
def img33strip : Bytes := List.replicate 28 1 ++ [0, 0, 0, 0, 1]

/-- An always-agreeing device: every compare matches, every sector is blank,
every CRC reads zero. -/
def oracleAgree : DeviceOracle :=
  { crcOf := fun _ _ => 0, memEqual := fun _ _ _ => true,
    sectorsBlank := fun _ _ => true }

/-- A blank machine state. -/
def blankState : MachineState := { flash := fun _ => 0xFF, ram := fun _ => 0 }

/-! ## Theorems -/

/-- When the sector size fits the RAM buffer, `sector_bytes` yields 1024. -/
theorem sector_bytes_ok (chip : ChipDescription)
    (hbuf : 1024 ≤ chip.RAMBufferSize) : sector_bytes chip = .ok 1024 := by
  unfold sector_bytes
  have h : ¬ chip.RAMBufferSize < 16 * 64 := by omega
  simp [h]

/-- `WriteSector` on nonempty data of at most one sector emits one write of
the `0xFF`-padded data. -/
theorem WriteSector_ok (chip : ChipDescription) (sector : Nat) (data : Bytes)
    (hbuf : 1024 ≤ chip.RAMBufferSize) (h0 : 0 < data.length)
    (hle : data.length ≤ 1024) :
    WriteSector chip sector data =
      .ok [.write sector
        (data ++ List.replicate (1024 - data.length) 0xFF)] := by
  unfold WriteSector
  have hne : ¬ data.length = 0 := by omega
  rw [sector_bytes_ok chip hbuf]
  by_cases hfull : data.length = 1024
  · simp [Except.instMonad, Except.bind, Except.pure, hne, hfull]
  · have hlen : (data ++ List.replicate (1024 - data.length) 0xFF).length
        = 1024 := by
      simp [List.length_append, List.length_replicate]
      omega
    simp [Except.instMonad, Except.bind, Except.pure, hne, hfull, hlen]

/-- Claim C6 theorem. -/
theorem WriteBinaryToFlash_capacity (chip : ChipDescription) (image : Bytes)
    (start_sector : Nat) (hbuf : 1024 ≤ chip.RAMBufferSize)
    (hcap : chip.SectorCount < start_sector + calc_sector_count image 1024) :
    WriteBinaryToFlash chip image start_sector = .ok (1, []) := by
  unfold WriteBinaryToFlash
  rw [sector_bytes_ok chip hbuf]
  simp [Except.instMonad, Except.bind, Except.pure, hcap]

/-- Claim C6 witness: a two-sector image on a one-sector chip is rejected
with status `1` and no serial traffic. -/
theorem WriteBinaryToFlash_capacity_witness :
    WriteBinaryToFlash chipOneSector (List.replicate 1025 1) 0 = .ok (1, []) :=
  WriteBinaryToFlash_capacity chipOneSector (List.replicate 1025 1) 0
    (by decide)
    (by simp only [calc_sector_count, List.length_replicate, chipOneSector]
        norm_num)

/-- Claim C7 theorem: `WriteSector` pads a short nonempty block with `0xFF`
to exactly `sector_bytes` before the flash-sector write, and passes a
full-sector block unchanged. -/
theorem WriteSector_pads (chip : ChipDescription) (sector : Nat)
    (data : Bytes) (hbuf : 1024 ≤ chip.RAMBufferSize) (h0 : 0 < data.length)
    (hle : data.length ≤ 1024) :
    WriteSector chip sector data =
      .ok [.write sector (data ++ List.replicate (1024 - data.length) 0xFF)]
    ∧ (data ++ List.replicate (1024 - data.length) 0xFF).length = 1024
    ∧ (data.length = 1024 →
        data ++ List.replicate (1024 - data.length) 0xFF = data) := by
  refine ⟨WriteSector_ok chip sector data hbuf h0 hle, ?_, ?_⟩
  · simp only [List.length_append, List.length_replicate]
    omega
  · intro h
    simp [h]

/-- Claim C7 witness: a three-byte block is padded with 1021 `0xFF` bytes. -/
theorem WriteSector_pads_witness :
    WriteSector chip845 5 [1, 2, 3] =
      .ok [.write 5
        ([1, 2, 3] ++ List.replicate (1024 - List.length [1, 2, 3]) 0xFF)] :=
  (WriteSector_pads chip845 5 [1, 2, 3] (by decide) (by decide)
    (by decide)).1

/-- Claim C10 theorem: every successfully constructed `ChipDescription`
satisfies `0 < RAMRange[0] < RAMRange[1]`, `FlashRange[0] < FlashRange[1]`
and `0 < SectorCount`, and construction fails when any of these is
violated.  (The embedding is purely functional: no modelled operation
returns a modified `ChipDescription`, so the fields never change after
construction.) -/
theorem mkChipDescription_invariants (rr fr : Nat × Nat)
    (rbs sc rsw : Nat) :
    (∀ c, mkChipDescription rr fr rbs sc rsw = some c →
      0 < c.RAMRange.1 ∧ c.RAMRange.1 < c.RAMRange.2 ∧
        c.FlashRange.1 < c.FlashRange.2 ∧ 0 < c.SectorCount) ∧
    (¬ (0 < rr.1 ∧ rr.1 < rr.2 ∧ fr.1 < fr.2 ∧ 0 < sc) →
      mkChipDescription rr fr rbs sc rsw = none) := by
  unfold mkChipDescription
  constructor
  · intro c hc
    split at hc
    · rename_i h
      cases hc
      exact ⟨h.1, h.2.1, h.2.2.1, h.2.2.2⟩
    · cases hc
  · intro h
    simp [h]

/-- Claim C10 witness: the invariants hold for the concretely constructed
`chip845`. -/
theorem mkChipDescription_invariants_witness :
    0 < chip845.RAMRange.1 ∧ chip845.RAMRange.1 < chip845.RAMRange.2 ∧
      chip845.FlashRange.1 < chip845.FlashRange.2 ∧
      0 < chip845.SectorCount :=
  (mkChipDescription_invariants (268435456, 268451839) (0, 65535)
    4096 64 268437504).1 chip845 rfl

/-- Claim C2 (code bug): on the all-zero 32-byte image the checksum
`(1 << 32) - (sum % (1 << 32))` evaluates to `2^32` itself, which
`struct.pack("<I", ...)` rejects, so `MakeBootable` raises `struct.error`
instead of returning a checksummed image. -/
theorem MakeBootable_checksum_overflow :
    MakeBootable 7 (List.replicate 32 0) = .error .structError ∧
    CalculateCheckSum (((List.range 8).map
      (leWordAt (List.replicate 32 0))).set 7 0) = 4294967296 := ⟨rfl, rfl⟩

/-- Claim C4 (code bug): a non-empty response line that is not a decimal
integer makes `_get_return_code` raise `ValueError` from `int()`, despite
its docstring "No exceptions are thrown."; the timeout and echo-discard
branches do behave as the claim states. -/
theorem get_return_code_nondecimal_raises :
    get_return_code "J" [.line "A"] = (.error .valueError, false) ∧
    get_return_code "J" [.timedOut] = (.ok NoStatusResponse, true) ∧
    get_return_code "J" [.line "J", .line "0"] = (.ok 0, false) ∧
    get_return_code "J" [.line "J", .line "A"] =
      (.error .valueError, false) := ⟨rfl, rfl, rfl, rfl⟩

/-- Claim C8 theorem: `CheckSectorsBlank` returns `true` on `CMD_SUCCESS`,
returns `false` after consuming the two diagnostic lines on
`SECTOR_NOT_BLANK` (8), and raises `UserWarning` on every other code. -/
theorem CheckSectorsBlank_spec (start endSector code : Nat)
    (reads : List ReadEv) (h : start ≤ endSector) :
    (code = 0 →
      CheckSectorsBlank start endSector code reads = (.ok true, 0)) ∧
    (code = 8 → ∀ a b rest, reads = .line a :: .line b :: rest →
      CheckSectorsBlank start endSector code reads = (.ok false, 2)) ∧
    (code ≠ 0 → code ≠ 8 →
      (CheckSectorsBlank start endSector code reads).1 =
        .error .userWarning) := by
  unfold CheckSectorsBlank
  have hns : ¬ endSector < start := by omega
  refine ⟨?_, ?_, ?_⟩
  · intro h0
    subst h0
    simp [hns]
  · intro h8 a b rest hr
    subst h8
    subst hr
    simp [hns]
  · intro h0 h8
    simp [hns, h0, h8]

/-- Claim C8 witness: return code 8 with two diagnostic lines available. -/
theorem CheckSectorsBlank_spec_witness :
    CheckSectorsBlank 0 3 8 [.line "57344", .line "1024"] =
      (.ok false, 2) :=
  (CheckSectorsBlank_spec 0 3 8 [.line "57344", .line "1024"]
    (by decide)).2.1 rfl "57344" "1024" [] rfl

/-- Claim C3 amended theorem: `ReadMemory` fails before anything reaches the
serial channel exactly on the word-alignment assertion; once `num_bytes` is
word-aligned the `R` command is always written, no range check occurs. -/
theorem ReadMemory_preflight (code : Nat) (buffered : Bytes)
    (start num_bytes : Nat) :
    (num_bytes % 4 ≠ 0 →
      ReadMemory code buffered start num_bytes =
        (.error .assertionError, [])) ∧
    (num_bytes % 4 = 0 →
      (ReadMemory code buffered start num_bytes).2 =
        ["R " ++ toString start ++ " " ++ toString num_bytes]) := by
  constructor
  · intro h
    simp [ReadMemory, h]
  · intro h
    by_cases h1 : code ≠ 0 <;>
      by_cases h2 : buffered.length < num_bytes <;>
        by_cases h3 : buffered.length ≠ num_bytes <;>
          simp [ReadMemory, h, h1, h2, h3]

/-- Claim C3 witness for the amended theorem: a misaligned size raises the
assertion with no serial traffic. -/
theorem ReadMemory_preflight_witness :
    ReadMemory 0 [] 8 6 = (.error .assertionError, []) :=
  (ReadMemory_preflight 0 [] 8 6).1 (by decide)

/-- Claim C3 counterexample: `read_memory(flash_end - 3, 8)` on `chip845`
is aligned but legal in neither flash nor RAM, yet the `R` command is
written to the wire and the call completes. -/
theorem ReadMemory_range_counterexample :
    FlashRangeLegal chip845 65532 8 = false ∧
    RamRangeLegal chip845 65532 8 = false ∧
    (ReadMemory 0 (List.replicate 8 0) 65532 8).2 = ["R 65532 8"] ∧
    (ReadMemory 0 (List.replicate 8 0) 65532 8).1 =
      .ok (List.replicate 8 0) := ⟨rfl, rfl, rfl, rfl⟩

/-- Claim C9 theorem: when the pre-write compare reports the flash sector
equal to the staged RAM, `WriteFlashSector` returns after only the staging
interactions — no prep, erase, blank-check or copy is issued — and the
flash contents are unchanged by the trace. -/
theorem WriteFlashSector_short_circuit (o : DeviceOracle)
    (chip : ChipDescription) (sector : Nat) (data : Bytes)
    (st : MachineState) (hbuf : 1024 ≤ chip.RAMBufferSize)
    (hlen : data.length = 1024)
    (hram : RamRangeLegal chip chip.RAMStartWrite 1024 = true)
    (heq : o.memEqual (chip.FlashRange.1 + sector * 1024)
      chip.RAMStartWrite 1024 = true) :
    WriteFlashSector o chip sector data =
      .ok (shortCircuitTrace chip sector data) ∧
    (shortCircuitTrace chip sector data).filter Ev.isDestructive = [] ∧
    (runEvents chip st (shortCircuitTrace chip sector data)).flash =
      st.flash := by
  refine ⟨?_, ?_, ?_⟩
  · unfold WriteFlashSector
    rw [sector_bytes_ok chip hbuf]
    simp [Except.instMonad, Except.bind, Except.pure, hlen, hram, heq,
      shortCircuitTrace]
  · simp [shortCircuitTrace, Ev.isDestructive]
  · simp [shortCircuitTrace, runEvents, applyEv]

/-- Claim C9 witness: an agreeing device on `chip845`, sector 0. -/
theorem WriteFlashSector_short_circuit_witness :
    WriteFlashSector oracleAgree chip845 0 (List.replicate 1024 0) =
      .ok (shortCircuitTrace chip845 0 (List.replicate 1024 0)) ∧
    (shortCircuitTrace chip845 0
      (List.replicate 1024 0)).filter Ev.isDestructive = [] ∧
    (runEvents chip845 blankState
      (shortCircuitTrace chip845 0 (List.replicate 1024 0))).flash =
      blankState.flash :=
  WriteFlashSector_short_circuit oracleAgree chip845 0
    (List.replicate 1024 0) blankState (by decide)
    (List.length_replicate 1024 0) (by decide) rfl

/-- When every listed sector's chunk start lies inside the image, the write
loop emits exactly one padded write per sector, in list order. -/
theorem WriteSectorLoop_ok (chip : ChipDescription) (image : Bytes)
    (start : Nat) (hbuf : 1024 ≤ chip.RAMBufferSize) :
    ∀ sectors : List Nat,
      (∀ s ∈ sectors, (s - start) * 1024 < image.length) →
      WriteSectorLoop chip image start sectors = .ok (sectors.map fun s =>
        .write s ((image.drop ((s - start) * 1024)).take 1024 ++
          List.replicate
            (1024 - ((image.drop ((s - start) * 1024)).take 1024).length)
            0xFF)) := by
  intro sectors
  induction sectors with
  | nil => intro _; rfl
  | cons s rest ih =>
    intro h
    have hs : (s - start) * 1024 < image.length :=
      h s (List.mem_cons_self _ _)
    have hrest := ih (fun x hx => h x (List.mem_cons_of_mem _ hx))
    unfold WriteSectorLoop
    rw [sector_bytes_ok chip hbuf]
    have hchunk0 :
        0 < ((image.drop ((s - start) * 1024)).take 1024).length := by
      simp only [List.length_take, List.length_drop]
      omega
    have hchunkle :
        ((image.drop ((s - start) * 1024)).take 1024).length ≤ 1024 := by
      simp only [List.length_take]
      omega
    simp only [Except.instMonad, Except.bind]
    rw [WriteSector_ok chip s _ hbuf hchunk0 hchunkle, hrest]
    simp [Except.bind, Except.pure]

/-- Claim C1 amended theorem: for a bootable-izable image that fits the
chip, `WriteImage` unlocks, issues the single corrupting `0xDE` write of
sector 0, then unlocks again and writes the prepared image's sectors in
strictly descending order `n-1, ..., 1, 0`, so sector 0's checksummed
content lands last. -/
theorem WriteImage_corrupt_then_descending (chip : ChipDescription)
    (imagein image : Bytes) (hbuf : 1024 ≤ chip.RAMBufferSize)
    (hfr : chip.FlashRange.1 ≤ chip.FlashRange.2)
    (hmb : MakeBootable 7 imagein = .ok image)
    (hcap : calc_sector_count image 1024 ≤ chip.SectorCount) :
    WriteImage chip imagein =
      .ok ([SEv.unlock, .write 0 (List.replicate 1024 0xDE), .unlock] ++
        ((List.range (calc_sector_count image 1024)).reverse.map fun s =>
          .write s ((image.drop (s * 1024)).take 1024 ++
            List.replicate
              (1024 - ((image.drop (s * 1024)).take 1024).length)
              0xFF))) := by
  have hn : calc_sector_count image 1024 =
      (image.length + 1024 - 1) / 1024 := rfl
  have hmem : ∀ s ∈ (List.range' 0 (calc_sector_count image 1024)).reverse,
      (s - 0) * 1024 < image.length := by
    intro s hsm
    rw [List.mem_reverse] at hsm
    have hlt := (List.mem_range'_1.mp hsm).2
    omega
  have hcorrupt : WriteSector chip 0 (List.replicate 1024 0xDE) =
      .ok [.write 0 (List.replicate 1024 0xDE)] := by
    have h := WriteSector_ok chip 0 (List.replicate 1024 0xDE) hbuf
      (by rw [List.length_replicate]; omega)
      (by rw [List.length_replicate])
    rw [List.length_replicate, Nat.sub_self, List.replicate_zero,
      List.append_nil] at h
    exact h
  have hfa : (FlashAddressLegal chip chip.FlashRange.1 &&
      FlashAddressLegal chip chip.FlashRange.2) = true := by
    simp [FlashAddressLegal, hfr]
  have hwbtf : WriteBinaryToFlash chip image 0 =
      .ok (0, SEv.unlock ::
        ((List.range' 0 (calc_sector_count image 1024)).reverse.map fun s =>
          .write s ((image.drop ((s - 0) * 1024)).take 1024 ++
            List.replicate
              (1024 - ((image.drop ((s - 0) * 1024)).take 1024).length)
              0xFF))) := by
    unfold WriteBinaryToFlash
    rw [sector_bytes_ok chip hbuf]
    simp only [Except.instMonad, Except.bind]
    rw [if_neg (by omega)]
    rw [WriteSectorLoop_ok chip image 0 hbuf _ hmem]
    simp [Except.bind, Except.pure, hfa]
  unfold WriteImage
  rw [sector_bytes_ok chip hbuf]
  simp only [Except.instMonad, Except.bind]
  rw [hcorrupt]
  simp only [Except.bind, kCheckSumLocation]
  rw [hmb]
  simp only [Except.bind]
  rw [hwbtf]
  simp only [Except.bind, Except.pure]
  rw [List.range_eq_range']
  simp only [List.cons_append, List.nil_append, Nat.sub_zero]

/-- Claim C1 witness: a 33-byte image on `chip845` yields the corrupting
write followed by the single (padded, checksummed) sector-0 write. -/
theorem WriteImage_corrupt_then_descending_witness :
    WriteImage chip845 img33 =
      .ok ([SEv.unlock, .write 0 (List.replicate 1024 0xDE), .unlock] ++
        ((List.range (calc_sector_count img33boot 1024)).reverse.map fun s =>
          .write s ((img33boot.drop (s * 1024)).take 1024 ++
            List.replicate
              (1024 - ((img33boot.drop (s * 1024)).take 1024).length)
              0xFF))) :=
  WriteImage_corrupt_then_descending chip845 img33 img33boot
    (by decide) (by decide) rfl (by decide)

/-- `GetCheckSumedVectorTable` at location 7 on a long-enough image,
written out explicitly. -/
theorem GCVT_eq (I : Bytes) (hlen : ¬ I.length < 32) :
    GetCheckSumedVectorTable 7 I =
      if ([leWordAt I 0, leWordAt I 1, leWordAt I 2, leWordAt I 3,
           leWordAt I 4, leWordAt I 5, leWordAt I 6,
           CalculateCheckSum [leWordAt I 0, leWordAt I 1, leWordAt I 2,
             leWordAt I 3, leWordAt I 4, leWordAt I 5, leWordAt I 6,
             0]].all fun v => v < 4294967296) then
        .ok (([leWordAt I 0, leWordAt I 1, leWordAt I 2, leWordAt I 3,
           leWordAt I 4, leWordAt I 5, leWordAt I 6,
           CalculateCheckSum [leWordAt I 0, leWordAt I 1, leWordAt I 2,
             leWordAt I 3, leWordAt I 4, leWordAt I 5, leWordAt I 6,
             0]].map pack32).flatten)
      else .error .structError := by
  unfold GetCheckSumedVectorTable
  rw [if_neg hlen, if_neg (by norm_num)]
  rfl

/-- `struct.pack` inverts the little-endian decode on genuine bytes. -/
theorem pack32_decode_bytes (a b c d : Nat) (ha : a < 256) (hb : b < 256)
    (hc : c < 256) (hd : d < 256) :
    pack32 (a + 256 * b + 65536 * c + 16777216 * d) = [a, b, c, d] := by
  unfold pack32
  simp only [List.cons.injEq, and_true]
  refine ⟨?_, ?_, ?_, ?_⟩ <;> omega

/-- Reading past an explicit 32-byte prefix lands in the tail. -/
theorem getD_cons32 (x0 x1 x2 x3 x4 x5 x6 x7 x8 x9 x10 x11 x12 x13 x14 x15
    x16 x17 x18 x19 x20 x21 x22 x23 x24 x25 x26 x27 x28 x29 x30 x31 : Nat)
    (t : List Nat) (i : Nat) (h : 32 ≤ i) :
    (x0 :: x1 :: x2 :: x3 :: x4 :: x5 :: x6 :: x7 :: x8 :: x9 :: x10 ::
      x11 :: x12 :: x13 :: x14 :: x15 :: x16 :: x17 :: x18 :: x19 :: x20 ::
      x21 :: x22 :: x23 :: x24 :: x25 :: x26 :: x27 :: x28 :: x29 :: x30 ::
      x31 :: t).getD i 0 = t.getD (i - 32) 0 := by
  obtain ⟨k, rfl⟩ : ∃ k, i = k + 32 := ⟨i - 32, by omega⟩
  rfl

/-- `RemoveBootableCheckSum 7` on an image whose first 28 bytes are the
bytes of `I`, followed by four arbitrary checksum bytes and `I`'s tail:
it succeeds and zeroes exactly bytes 28..31. -/
theorem RemoveBootable_table (I : Bytes) (c0 c1 c2 c3 : Nat)
    (hlen : ¬ I.length < 32)
    (hall : ([leWordAt I 0, leWordAt I 1, leWordAt I 2, leWordAt I 3,
        leWordAt I 4, leWordAt I 5, leWordAt I 6,
        CalculateCheckSum [leWordAt I 0, leWordAt I 1, leWordAt I 2,
          leWordAt I 3, leWordAt I 4, leWordAt I 5, leWordAt I 6,
          0]].all fun v => v < 4294967296) = true) :
    (RemoveBootableCheckSum 7
      (I.getD 0 0 :: I.getD 1 0 :: I.getD 2 0 :: I.getD 3 0 ::
       I.getD 4 0 :: I.getD 5 0 :: I.getD 6 0 :: I.getD 7 0 ::
       I.getD 8 0 :: I.getD 9 0 :: I.getD 10 0 :: I.getD 11 0 ::
       I.getD 12 0 :: I.getD 13 0 :: I.getD 14 0 :: I.getD 15 0 ::
       I.getD 16 0 :: I.getD 17 0 :: I.getD 18 0 :: I.getD 19 0 ::
       I.getD 20 0 :: I.getD 21 0 :: I.getD 22 0 :: I.getD 23 0 ::
       I.getD 24 0 :: I.getD 25 0 :: I.getD 26 0 :: I.getD 27 0 ::
       c0 :: c1 :: c2 :: c3 :: List.drop 32 I)).isOk = true ∧
    ∀ R, RemoveBootableCheckSum 7
      (I.getD 0 0 :: I.getD 1 0 :: I.getD 2 0 :: I.getD 3 0 ::
       I.getD 4 0 :: I.getD 5 0 :: I.getD 6 0 :: I.getD 7 0 ::
       I.getD 8 0 :: I.getD 9 0 :: I.getD 10 0 :: I.getD 11 0 ::
       I.getD 12 0 :: I.getD 13 0 :: I.getD 14 0 :: I.getD 15 0 ::
       I.getD 16 0 :: I.getD 17 0 :: I.getD 18 0 :: I.getD 19 0 ::
       I.getD 20 0 :: I.getD 21 0 :: I.getD 22 0 :: I.getD 23 0 ::
       I.getD 24 0 :: I.getD 25 0 :: I.getD 26 0 :: I.getD 27 0 ::
       c0 :: c1 :: c2 :: c3 :: List.drop 32 I) = .ok R →
      R.length = I.length ∧
      (∀ i, i < I.length → i < 28 ∨ 32 ≤ i → R.getD i 0 = I.getD i 0) ∧
      (∀ i, 28 ≤ i → i ≤ 31 → R.getD i 0 = 0) := by
  have hJlen : ¬ (I.getD 0 0 :: I.getD 1 0 :: I.getD 2 0 :: I.getD 3 0 ::
       I.getD 4 0 :: I.getD 5 0 :: I.getD 6 0 :: I.getD 7 0 ::
       I.getD 8 0 :: I.getD 9 0 :: I.getD 10 0 :: I.getD 11 0 ::
       I.getD 12 0 :: I.getD 13 0 :: I.getD 14 0 :: I.getD 15 0 ::
       I.getD 16 0 :: I.getD 17 0 :: I.getD 18 0 :: I.getD 19 0 ::
       I.getD 20 0 :: I.getD 21 0 :: I.getD 22 0 :: I.getD 23 0 ::
       I.getD 24 0 :: I.getD 25 0 :: I.getD 26 0 :: I.getD 27 0 ::
       c0 :: c1 :: c2 :: c3 :: List.drop 32 I).length < 32 := by
    simp only [List.length_cons, List.length_drop]
    omega
  have hGJ := GCVT_eq _ hJlen
  rw [if_pos (by exact hall)] at hGJ
  unfold RemoveBootableCheckSum MakeBootable
  rw [hGJ]
  simp only [Except.instMonad, Except.bind, Except.pure]
  rw [if_pos (show 4 * 7 + 3 <
      (I.getD 0 0 :: I.getD 1 0 :: I.getD 2 0 :: I.getD 3 0 ::
       I.getD 4 0 :: I.getD 5 0 :: I.getD 6 0 :: I.getD 7 0 ::
       I.getD 8 0 :: I.getD 9 0 :: I.getD 10 0 :: I.getD 11 0 ::
       I.getD 12 0 :: I.getD 13 0 :: I.getD 14 0 :: I.getD 15 0 ::
       I.getD 16 0 :: I.getD 17 0 :: I.getD 18 0 :: I.getD 19 0 ::
       I.getD 20 0 :: I.getD 21 0 :: I.getD 22 0 :: I.getD 23 0 ::
       I.getD 24 0 :: I.getD 25 0 :: I.getD 26 0 :: I.getD 27 0 ::
       c0 :: c1 :: c2 :: c3 :: List.drop 32 I).length by
    simp only [List.length_cons, List.length_drop]
    omega)]
  refine ⟨rfl, ?_⟩
  intro R hR
  have hRR := Except.ok.inj hR
  subst hRR
  refine ⟨?_, ?_, ?_⟩
  · simp only [List.length_set, List.length_cons, List.length_drop]
    omega
  · intro i hi hcase
    rcases hcase with hlt | hge
    · interval_cases i <;> rfl
    · have hstep := getD_cons32 (I.getD 0 0) (I.getD 1 0) (I.getD 2 0)
        (I.getD 3 0) (I.getD 4 0) (I.getD 5 0) (I.getD 6 0) (I.getD 7 0)
        (I.getD 8 0) (I.getD 9 0) (I.getD 10 0) (I.getD 11 0)
        (I.getD 12 0) (I.getD 13 0) (I.getD 14 0) (I.getD 15 0)
        (I.getD 16 0) (I.getD 17 0) (I.getD 18 0) (I.getD 19 0)
        (I.getD 20 0) (I.getD 21 0) (I.getD 22 0) (I.getD 23 0)
        (I.getD 24 0) (I.getD 25 0) (I.getD 26 0) (I.getD 27 0)
        0 0 0 0 (List.drop 32 I) i hge
      exact hstep.trans (by
        rw [List.getD_eq_getElem?_getD, List.getD_eq_getElem?_getD,
          List.getElem?_drop, show 32 + (i - 32) = i by omega])
  · intro i h28 h31
    interval_cases i <;> rfl

/-- Claim C5 amended theorem: whenever `MakeBootable 7 I` succeeds (its
checksum does not overflow `struct.pack`), `RemoveBootableCheckSum 7` of the
result succeeds and returns `I` with the four bytes of word 7 (28..31)
zeroed, every other byte unchanged. -/
theorem RemoveBootable_roundtrip (I J : Bytes)
    (hb : ∀ b ∈ I, b < 256)
    (hmb : MakeBootable 7 I = .ok J) :
    (RemoveBootableCheckSum 7 J).isOk = true ∧
    ∀ R, RemoveBootableCheckSum 7 J = .ok R →
      R.length = I.length ∧
      (∀ i, i < I.length → i < 28 ∨ 32 ≤ i → R.getD i 0 = I.getD i 0) ∧
      (∀ i, 28 ≤ i → i ≤ 31 → R.getD i 0 = 0) := by
  have hbyte : ∀ k, k < I.length → I.getD k 0 < 256 := by
    intro k hk
    rw [List.getD_eq_getElem I 0 hk]
    exact hb _ (List.getElem_mem hk)
  unfold MakeBootable at hmb
  cases hG : GetCheckSumedVectorTable 7 I with
  | error e =>
    rw [hG] at hmb
    simp [Except.instMonad, Except.bind] at hmb
  | ok V =>
    rw [hG] at hmb
    simp only [Except.instMonad, Except.bind, Except.pure,
      Except.ok.injEq] at hmb
    subst hmb
    by_cases hlen : I.length < 32
    · unfold GetCheckSumedVectorTable at hG
      rw [if_pos hlen] at hG
      cases hG
    · rw [GCVT_eq I hlen] at hG
      split at hG
      · rename_i hall
        injection hG with hV
        subst hV
        have hp : ∀ i, i < 7 → pack32 (leWordAt I i) =
            [I.getD (4 * i) 0, I.getD (4 * i + 1) 0, I.getD (4 * i + 2) 0,
             I.getD (4 * i + 3) 0] := by
          intro i hi
          exact pack32_decode_bytes _ _ _ _ (hbyte _ (by omega))
            (hbyte _ (by omega)) (hbyte _ (by omega)) (hbyte _ (by omega))
        simp only [List.map_cons, List.map_nil, List.flatten_cons,
          List.flatten_nil] at *
        rw [hp 0 (by omega), hp 1 (by omega), hp 2 (by omega),
          hp 3 (by omega), hp 4 (by omega), hp 5 (by omega),
          hp 6 (by omega)]
        simp only [pack32, List.cons_append, List.nil_append,
          List.append_nil, List.length_cons, List.length_nil,
          Nat.reduceAdd]
        exact RemoveBootable_table I _ _ _ _ hlen hall
      · cases hG

/-- Claim C5 witness: the 33-byte image `img33`; the round trip yields
`img33strip`, which matches `img33` away from bytes 28..31 and is zero
there. -/
theorem RemoveBootable_roundtrip_witness :
    (RemoveBootableCheckSum 7 img33boot).isOk = true ∧
    img33strip.getD 13 0 = img33.getD 13 0 ∧
    img33strip.getD 30 0 = 0 ∧
    img33strip.length = img33.length := by
  have h := RemoveBootable_roundtrip img33 img33boot (by decide) rfl
  have h2 := h.2 img33strip rfl
  exact ⟨h.1, h2.2.1 13 (by decide) (Or.inl (by decide)),
    h2.2.2 30 (by decide) (by decide), h2.1⟩

/-- Claim C5 counterexample: on the all-zero 32-byte image the composition
raises `struct.error` (inside `MakeBootable`) instead of returning the
image with word 7 zeroed. -/
theorem RemoveBootable_roundtrip_counterexample :
    (MakeBootable 7 (List.replicate 32 0)).bind (RemoveBootableCheckSum 7) =
      .error .structError := rfl

set_option maxRecDepth 8192 in
/-- Claim C1 counterexample: on a one-sector chip a two-sector image still
gets the corrupting write of sector 0, but no image sector is written at
all — there is no descending write sequence. -/
theorem WriteImage_capacity_counterexample :
    WriteImage chipOneSector (List.replicate 1025 1) =
      .ok [SEv.unlock, .write 0 (List.replicate 1024 0xDE)] := by rfl

end Isp
